import Mathlib

/-!
# Verification of the cloudflare-router matching-and-dispatch engine

Shallow embedding of `src/Router.ts`. JavaScript strings are modelled as
lists of characters (`JStr`); the `url-pattern` library is out of scope per
the spec's non-goals, so a compiled pattern is modelled abstractly as a
function from a concrete path to an optional parameter map.
-/

/-- JavaScript strings, modelled as lists of characters. -/
abbrev JStr := List Char

/-- Captured path parameters: parameter name mapped to captured string. -/
abbrev Params := List (JStr × JStr)

/-- A compiled path pattern: maps a concrete path to captured parameters,
or `none` for "no match" (the `null` of `UrlPattern.match`). -/
abbrev Pattern := JStr → Option Params

/-- The opaque response payload accumulated by handlers (the internal
response state of `RouterResponse`). -/
abbrev Payload := Nat

/-- An incoming request as seen by the router: `method` and `path`
(`RouterRequest` exposes both fields of the raw incoming request). -/
structure JRequest where
  method : JStr
  path : JStr

/-- The data of one `Route` (fields of `class Route` in `src/Router.ts`),
parameterised by the handler type so that `JRouter` can be formed as a
nested inductive. `pattern`, `formattedPath`, `inputPath` are the three
components of `Route.path`. The `router` back-reference of the source is a
non-owning pointer used only to read the base path; it is passed explicitly
to the functions that need it instead of being stored. -/
structure RouteData (H : Type) where
  method : JStr
  pattern : Pattern
  formattedPath : JStr
  inputPath : JStr
  handler : H
  isMiddleware : Bool
  isRouterHandler : Bool

/-- A `Router` (fields of `class Router` in `src/Router.ts`): base path,
waterfall flag, ordered route list, optional response transformer. A
route's handler is either a terminal function (identified opaquely by a
`Nat`, interpreted by an environment `Nat → Payload → Payload`) or a
nested `Router` (`Sum.inr`). -/
inductive JRouter : Type where
  | mk (basePath : JStr) (isWaterfall : Bool)
       (routes : List (RouteData (Nat ⊕ JRouter)))
       (transformer : Option (Payload → Payload)) : JRouter

/-- One registered route of a router. -/
abbrev JRoute := RouteData (Nat ⊕ JRouter)

def JRouter.basePath : JRouter → JStr
  | .mk bp _ _ _ => bp

def JRouter.isWaterfall : JRouter → Bool
  | .mk _ wf _ _ => wf

def JRouter.routes : JRouter → List JRoute
  | .mk _ _ rs _ => rs

def JRouter.transformer : JRouter → Option (Payload → Payload)
  | .mk _ _ _ tr => tr

/-! ## JavaScript-expression helpers -/

/-- JavaScript `x || y` for an optional boolean `x` (`undefined` is falsy):
returns `x` when `x` is truthy, otherwise `y`. -/
def jsOrBool (x : Option Bool) (y : Bool) : Bool :=
  match x with
  | some true => true
  | _ => y

/-- JavaScript `x || y` for an optional string `x` (`undefined` and the
empty string are falsy). -/
def jsOrStr (x : Option JStr) (y : JStr) : JStr :=
  match x with
  | some s => if s = [] then y else s
  | none => y

/-- JavaScript `s.toUpperCase()` (the methods compared by the router are
ASCII, on which `Char.toUpper` agrees with JavaScript). -/
def jsUpper (s : JStr) : JStr := s.map Char.toUpper

/-- Does the string start with the separator, i.e. JS `s.startsWith("/")`. -/
def headIsSlash (s : JStr) : Bool :=
  match s with
  | c :: _ => c = '/'
  | [] => false

/-- Does the string end with the separator, i.e. JS `s.endsWith("/")`. -/
def lastIsSlash (s : JStr) : Bool :=
  match s.getLast? with
  | some c => c = '/'
  | none => false

/-! ## Path normalization: `Router.fixPath` -/

/-- The first assignment of `Router.fixPath`:
`path = (this.basePath || "/") + (path.startsWith("/") ? path.slice(1) : path)`. -/
def withBase (basePath path : JStr) : JStr :=
  (if basePath = [] then ['/'] else basePath) ++
    (if headIsSlash path then path.drop 1 else path)

/-- Embeds `Router.fixPath` of `src/Router.ts`: prefix with the base path (see
`withBase`), then append `"/"` if the result does not already end with
one. -/
def fixPath (basePath path : JStr) : JStr :=
  if lastIsSlash (withBase basePath path) then withBase basePath path
  else withBase basePath path ++ ['/']

/-! ## Route matching: `Route.matchPath` / `Route.match` -/

/-- The result of `Route.match`: the raw path-match value and the overall
`doesMatch` verdict. -/
structure MatchRes where
  pathMatch : Option Params
  doesMatch : Bool
deriving DecidableEq

/-- Embeds `Route.matchPath`: delegate to the compiled pattern on the request
path. -/
def matchPath (route : JRoute) (req : JRequest) : Option Params :=
  route.pattern req.path

/-- Embeds `Route.match`: `doesMatch = !!pathMatches && methodMatches` where
`methodMatches` compares the route method and the request method after
`toUpperCase()`. Note the source has no special case for the `"ANY"`
method. -/
def routeMatch (route : JRoute) (req : JRequest) : MatchRes :=
  let pathMatches := matchPath route req
  let methodMatches := jsUpper route.method = jsUpper req.method
  { pathMatch := pathMatches
    doesMatch := pathMatches.isSome && methodMatches }

/-! ## Route discovery: `Router.findMatchingRoutes` -/

/-- One element of the list returned by `findMatchingRoutes`: the route and
the raw match value stored by the source (`match: matchRoute.pathMatch`). -/
structure Matching where
  route : JRoute
  pathMatch : Option Params

/-- The body of the `for (const route of this.routes)` loop of
`Router.findMatchingRoutes`, folded over the route list: a nested-`Router`
handler contributes that router's own matches spliced in place, a plain
route contributes itself when `match.doesMatch`. -/
def findList (req : JRequest) : List JRoute → List Matching
  | [] => []
  | ⟨_, _, _, _, Sum.inr (JRouter.mk _ _ rs _), _, _⟩ :: rest =>
    findList req rs ++ findList req rest
  | route :: rest =>
    (let m := routeMatch route req
     if m.doesMatch then [⟨route, m.pathMatch⟩] else []) ++
    findList req rest

/-- Embeds `Router.findMatchingRoutes`. -/
def findMatchingRoutes (r : JRouter) (req : JRequest) : List Matching :=
  findList req r.routes

/-! ## Route construction and registration -/

/-- Evaluates `options.handler instanceof Router`. -/
def isRouterH : Nat ⊕ JRouter → Bool
  | Sum.inr _ => true
  | Sum.inl _ => false

/-- Embeds `RouteOptions` of `src/Router.ts`: `method` and `isMiddleware` are
optional. -/
structure RouteOptionsM where
  path : JStr
  handler : Nat ⊕ JRouter
  method : Option JStr
  isMiddleware : Option Bool

/-- The `Route` constructor: `method = options.method || "GET"`, the path is
fixed against the owning router's current base path and compiled
(`createUrlPattern`, i.e. `new UrlPattern(path)`, is modelled by the opaque
`compile` argument), `isMiddleware` is forced `false` for a nested-`Router`
handler and is `!!options.isMiddleware` otherwise, and `isRouterHandler` is
`options.handler instanceof Router`. -/
def mkRoute (compile : JStr → Pattern) (basePath : JStr) (opts : RouteOptionsM) : JRoute :=
  let fixedPath := fixPath basePath opts.path
  { method := jsOrStr opts.method ("GET".toList)
    pattern := compile fixedPath
    formattedPath := fixPath basePath opts.path
    inputPath := opts.path
    handler := opts.handler
    isMiddleware := if isRouterH opts.handler then false else jsOrBool opts.isMiddleware false
    isRouterHandler := isRouterH opts.handler }

/-- Embeds `Router.createRoute`: throws when `options.method !== "ANY"` (an exact,
case-sensitive string comparison, with an absent method also unequal to
`"ANY"`) and the handler is a nested `Router`; the throw happens before
`this.routes.push`, so the router is returned unchanged in the error case.
Otherwise the new route is appended to `routes`. -/
def createRoute (compile : JStr → Pattern) (r : JRouter) (opts : RouteOptionsM) :
    JRouter × Except JStr JRoute :=
  if opts.method ≠ some ("ANY".toList) ∧ isRouterH opts.handler = true then
    (r, .error ("Cannot have handler as instance of Router if method is not ANY!".toList))
  else
    let createdRoute := mkRoute compile r.basePath opts
    (JRouter.mk r.basePath r.isWaterfall (r.routes ++ [createdRoute]) r.transformer,
     .ok createdRoute)

/-! ## `Router.setBasePath` and the constructor -/

/-- The options `Router.setBasePath` passes to `createRoute` when rebuilding
an existing route: the original input path, handler, method and middleware
flag. -/
def rebuildOpts (old : JRoute) : RouteOptionsM :=
  { path := old.inputPath
    handler := old.handler
    method := some old.method
    isMiddleware := some old.isMiddleware }

/-- The `for (const oldRoute of this.routes)` loop of `Router.setBasePath`,
with JavaScript's live-array `for...of` semantics: the iterator re-reads
`this.routes.length` on every step, and `createRoute` pushes the rebuilt
route onto the very array being iterated. `i` is the iterator index; the
result is `none` when `fuel` steps did not reach the exit, `some (.error e)`
when a rebuild threw, and `some (.ok r)` when the iterator ran off the end
of the array. -/
def setBasePathLoop (compile : JStr → Pattern) :
    Nat → Nat → JRouter → Option (Except JStr JRouter)
  | 0, _, _ => none
  | fuel + 1, i, r =>
    if h : i < r.routes.length then
      match createRoute compile r (rebuildOpts (r.routes.get ⟨i, h⟩)) with
      | (r', .ok _) => setBasePathLoop compile fuel (i + 1) r'
      | (_, .error e) => some (.error e)
    else
      some (.ok r)

/-- Embeds `Router.setBasePath`: resets `basePath` to `"/"`, then to
`fixPath(path || "/")`, then runs the rebuild loop over the (live) route
array. (The final `this.routes = newRoutes` assignment of the source is
reachable only when the loop exits, in which case the routes pushed during
the loop are exactly the contents of `newRoutes` appended to the old
array.) -/
def setBasePath (compile : JStr → Pattern) (fuel : Nat) (r : JRouter)
    (path : Option JStr) : Option (Except JStr JRouter) :=
  let newBase := fixPath ['/'] (jsOrStr path ['/'])
  setBasePathLoop compile fuel 0
    (JRouter.mk newBase r.isWaterfall r.routes r.transformer)

/-- The `Router` constructor: `isWaterfall = options.waterfallMiddleware ||
true`, `routes = []`, and `basePath = setBasePath(options.basePath)`, which
over the empty route list performs zero rebuild iterations. -/
def mkRouter (basePath : Option JStr) (waterfallMiddleware : Option Bool)
    (transformer : Option (Payload → Payload)) : JRouter :=
  JRouter.mk (fixPath ['/'] (jsOrStr basePath ['/']))
    (jsOrBool waterfallMiddleware true) [] transformer

/-! ## Dispatch: `Router.serve` -/

/-- Modelled from the spec: `RouterResponse.buildResponse`
(`RouterResponse.ts` is not part of the sources); per the spec it applies
the configured response transform to the accumulated payload if one is
configured, otherwise emits the accumulated payload as-is. -/
def buildResponse (transformer : Option (Payload → Payload)) (p : Payload) : Payload :=
  match transformer with
  | some f => f p
  | none => p

/-- Invoke a matched route's handler function on the shared payload, with
`sem` interpreting opaque handler identifiers. (A nested-`Router` handler
never occurs among `findMatchingRoutes` results — see
`findList_no_router_handler` — so the `Sum.inr` arm is unreachable during
dispatch.) -/
def applyHandler (sem : Nat → Payload → Payload) (route : JRoute) (p : Payload) : Payload :=
  match route.handler with
  | Sum.inl fid => sem fid p
  | Sum.inr _ => p

/-- The observable outcome of one `serve` call: the params assigned onto the
request, the middleware routes executed (in discovery order), the chosen
terminal route, the value passed to `console.log`, and the value the
returned promise resolves with. -/
structure ServeRes where
  paramsSet : Option (Option Params)
  middlewaresRun : List JRoute
  terminalRoute : Option JRoute
  logged : Option Payload
  returned : Option Payload

-- `paramsSet = some x` records that `request.setParams` was invoked with
-- the raw match value `x`; `none` records that it was never invoked.

/-- Embeds `Router.serve`. When the request is already a wrapped `RouterRequest`
(`alreadyProcessed`), the entire dispatch body is skipped and the promise
resolves with `undefined`. Otherwise: discover matches, partition by
`isMiddleware`, take the first non-middleware match (`.find(m => m)`) as the
response handler or throw, set its params on the request, run the
middlewares and then the handler on the shared payload (modelled as an
in-order fold: the waterfall mode awaits them in discovery order, and the
single-threaded model does not distinguish the `Promise.all` interleaving),
then `console.log` the built response — the function body contains no
`return`, so the promise resolves with `undefined` in every case. -/
def serve (sem : Nat → Payload → Payload) (r : JRouter) (req : JRequest)
    (alreadyProcessed : Bool) (initialPayload : Payload) : Except JStr ServeRes :=
  if alreadyProcessed then
    .ok ⟨none, [], none, none, none⟩
  else
    let found := findMatchingRoutes r req
    let middlewares := found.filter (fun m => m.route.isMiddleware)
    match (found.filter (fun m => !m.route.isMiddleware)).head? with
    | none => .error ("Could not find a response handler for the request!".toList)
    | some responseHandler =>
      let afterMw := middlewares.foldl (fun p m => applyHandler sem m.route p) initialPayload
      let afterH := applyHandler sem responseHandler.route afterMw
      .ok ⟨some responseHandler.pathMatch, middlewares.map (·.route),
           some responseHandler.route,
           some (buildResponse r.transformer afterH), none⟩

/-! ## Fuel-indexed route discovery (for the termination claim) -/

/-- Nesting depth of a route list: one more than the deepest nested
router's depth. -/
def depthList : List JRoute → Nat
  | [] => 0
  | ⟨_, _, _, _, Sum.inr (JRouter.mk _ _ rs _), _, _⟩ :: rest =>
    max (depthList rs + 1) (depthList rest)
  | _ :: rest => depthList rest

/-- Nesting depth of a router. -/
def routerDepth (r : JRouter) : Nat := depthList r.routes

/-- Runs `findList` with explicit recursion fuel: descending into a nested
router consumes one unit of fuel, and exhausted fuel yields `none`. -/
def findListFuel (req : JRequest) : Nat → List JRoute → Option (List Matching)
  | _, [] => some []
  | 0, ⟨_, _, _, _, Sum.inr _, _, _⟩ :: _ => none
  | fuel + 1, ⟨_, _, _, _, Sum.inr (JRouter.mk _ _ rs _), _, _⟩ :: rest => do
    let a ← findListFuel req fuel rs
    let b ← findListFuel req (fuel + 1) rest
    some (a ++ b)
  | fuel, route :: rest => do
    let b ← findListFuel req fuel rest
    some ((let m := routeMatch route req
           if m.doesMatch then [⟨route, m.pathMatch⟩] else []) ++ b)
termination_by fuel rs => (fuel, rs.length)

/-- Runs `findMatchingRoutes` with explicit recursion fuel. -/
def findMatchingRoutesFuel (fuel : Nat) (r : JRouter) (req : JRequest) :
    Option (List Matching) :=
  findListFuel req fuel r.routes

/-! ## Concrete fixtures used by the theorems -/

/-- A concrete stand-in for a compiled pattern: matches exactly one literal
path, capturing no parameters (a parameter-free `url-pattern`). -/
def litPat (s : JStr) : Pattern := fun p => if p = s then some [] else none

/-- A concrete pattern compiler: each formatted path matches exactly
itself. -/
def litCompile : JStr → Pattern := litPat

/-- A plain (function-handler) route on formatted path `/w/`. -/
def plainRoute (fid : Nat) (method : String) : JRoute :=
  { method := method.toList
    pattern := litPat ("/w/".toList)
    formattedPath := "/w/".toList
    inputPath := "/w".toList
    handler := Sum.inl fid
    isMiddleware := false
    isRouterHandler := false }

def routeA : JRoute := plainRoute 1 "GET"
def routeC : JRoute := plainRoute 3 "GET"
def routeD : JRoute := plainRoute 4 "GET"
def routeE : JRoute := plainRoute 5 "GET"

/-- The nested router mounted by `routeB`, owning `routeC` and `routeD`. -/
def innerRouter : JRouter := JRouter.mk ("/".toList) true [routeC, routeD] none

/-- The mounting route whose handler is `innerRouter`. -/
def routeB : JRoute :=
  { method := "ANY".toList
    pattern := litPat ("/w/".toList)
    formattedPath := "/w/".toList
    inputPath := "/w".toList
    handler := Sum.inr innerRouter
    isMiddleware := false
    isRouterHandler := true }

/-- A router with routes `[A (plain), B (nested router with [C, D]),
E (plain)]`. -/
def exRouter : JRouter := JRouter.mk ("/".toList) true [routeA, routeB, routeE] none

/-- A GET request for `/w/`, matched by the patterns of A, C, D and E. -/
def reqW : JRequest := ⟨"GET".toList, "/w/".toList⟩

/-- A route registered with method `"ANY"` whose pattern matches `/x/`. -/
def anyRoute : JRoute :=
  { method := "ANY".toList
    pattern := litPat ("/x/".toList)
    formattedPath := "/x/".toList
    inputPath := "/x".toList
    handler := Sum.inl 0
    isMiddleware := false
    isRouterHandler := false }

/-- A GET request for `/x/`. -/
def reqGetX : JRequest := ⟨"GET".toList, "/x/".toList⟩

/-- An `"any"`-method request for `/x/`. -/
def reqAnyX : JRequest := ⟨"any".toList, "/x/".toList⟩

/-- Registration options for a plain GET route on input path `/widgets`. -/
def widgetOpts : RouteOptionsM :=
  { path := "/widgets".toList
    handler := Sum.inl 0
    method := some ("GET".toList)
    isMiddleware := some false }

/-- A terminal GET route on `/` (handler id `0`). -/
def soloRoute : JRoute :=
  { method := "GET".toList
    pattern := litPat ("/".toList)
    formattedPath := "/".toList
    inputPath := "/".toList
    handler := Sum.inl 0
    isMiddleware := false
    isRouterHandler := false }

/-- A router holding only `soloRoute`, no transformer. -/
def soloRouter : JRouter := JRouter.mk ("/".toList) true [soloRoute] none

/-- A GET request for `/`. -/
def reqRoot : JRequest := ⟨"GET".toList, "/".toList⟩

/-- A handler interpretation where every handler increments the payload. -/
def semInc : Nat → Payload → Payload := fun _ p => p + 1

/-- The string `s` ends with exactly one trailing separator: its last
character is `/` and the character before it is not. -/
def endsWithOneSlash (s : JStr) : Bool :=
  lastIsSlash s && !(lastIsSlash s.dropLast)

/-! ## Helper lemmas -/

theorem routes_mk (bp : JStr) (wf : Bool) (rs : List JRoute)
    (tr : Option (Payload → Payload)) : (JRouter.mk bp wf rs tr).routes = rs := rfl

theorem mkRoute_handler (compile : JStr → Pattern) (bp : JStr) (opts : RouteOptionsM) :
    (mkRoute compile bp opts).handler = opts.handler := rfl

theorem fixPath_last (bp p : JStr) : lastIsSlash (fixPath bp p) = true := by
  unfold fixPath
  split
  · assumption
  · simp [lastIsSlash, List.getLast?_concat]

theorem withBase_cons (c : Char) (bs p : JStr) :
    withBase (c :: bs) p = c :: (bs ++ (if headIsSlash p then p.drop 1 else p)) := by
  unfold withBase
  rw [if_neg (List.cons_ne_nil c bs)]
  rfl

theorem fixPath_cons_shape (c : Char) (bs p : JStr) : ∃ t, fixPath (c :: bs) p = c :: t := by
  unfold fixPath
  rw [withBase_cons]
  split <;> split <;> exact ⟨_, rfl⟩

theorem fixPath_headIsSlash (bp p : JStr) (h : headIsSlash bp = true) :
    headIsSlash (fixPath bp p) = true := by
  cases bp with
  | nil => simp [headIsSlash] at h
  | cons c bs =>
    obtain ⟨t, ht⟩ := fixPath_cons_shape c bs p
    rw [ht]
    simpa [headIsSlash] using h

theorem findList_no_router_handler :
    ∀ (req : JRequest) (rs : List JRoute) (m : Matching),
      m ∈ findList req rs → isRouterH m.route.handler = false := by
  intro req rs
  induction rs using findList.induct req with
  | case1 => intro m hm; simp [findList] at hm
  | case2 me pa fp ip bp wf rs tr mid rh rest ih1 ih2 =>
    intro m hm
    simp only [findList, List.mem_append] at hm
    rcases hm with hm | hm
    · exact ih1 m hm
    · exact ih2 m hm
  | case3 route rest hne ih =>
    intro m hm
    obtain ⟨me, pa, fp, ip, hd, mid, rh⟩ := route
    cases hd with
    | inr r' =>
      obtain ⟨bp, wf, rs', tr⟩ := r'
      exact absurd rfl (hne me pa fp ip bp wf rs' tr mid rh)
    | inl fid =>
      simp only [findList, List.mem_append] at hm
      rcases hm with hm | hm
      · by_cases hc : (routeMatch ⟨me, pa, fp, ip, Sum.inl fid, mid, rh⟩ req).doesMatch
        · rw [if_pos hc] at hm
          simp only [List.mem_singleton] at hm
          subst hm
          rfl
        · rw [if_neg hc] at hm
          simp at hm
      · exact ih m hm

theorem findListFuel_complete :
    ∀ (req : JRequest) (rs : List JRoute) (fuel : Nat),
      depthList rs ≤ fuel → findListFuel req fuel rs = some (findList req rs) := by
  intro req rs
  induction rs using findList.induct req with
  | case1 => intro fuel _; cases fuel <;> simp [findListFuel, findList]
  | case2 me pa fp ip bp wf rs tr mid rh rest ih1 ih2 =>
    intro fuel hd
    simp only [depthList] at hd
    cases fuel with
    | zero => omega
    | succ f =>
      rw [show findListFuel req (f + 1)
          ({ method := me, pattern := pa, formattedPath := fp, inputPath := ip,
             handler := Sum.inr (JRouter.mk bp wf rs tr), isMiddleware := mid,
             isRouterHandler := rh } :: rest) = (do
            let a ← findListFuel req f rs
            let b ← findListFuel req (f + 1) rest
            some (a ++ b)) from by simp [findListFuel]]
      rw [ih1 f (by omega), ih2 (f + 1) (by omega)]
      simp [findList]
  | case3 route rest hne ih =>
    intro fuel hd
    obtain ⟨me, pa, fp, ip, hd', mid, rh⟩ := route
    cases hd' with
    | inr r' =>
      obtain ⟨bp, wf, rs', tr⟩ := r'
      exact absurd rfl (hne me pa fp ip bp wf rs' tr mid rh)
    | inl fid =>
      have hrest : depthList rest ≤ fuel := by
        simpa [depthList] using hd
      cases fuel with
      | zero =>
        rw [show findListFuel req 0
            ({ method := me, pattern := pa, formattedPath := fp, inputPath := ip,
               handler := Sum.inl fid, isMiddleware := mid,
               isRouterHandler := rh } :: rest) = (do
              let b ← findListFuel req 0 rest
              some ((let m := routeMatch ⟨me, pa, fp, ip, Sum.inl fid, mid, rh⟩ req
                     if m.doesMatch then [⟨⟨me, pa, fp, ip, Sum.inl fid, mid, rh⟩, m.pathMatch⟩]
                     else []) ++ b)) from by simp [findListFuel]]
        rw [ih 0 hrest]
        simp [findList]
      | succ f =>
        rw [show findListFuel req (f + 1)
            ({ method := me, pattern := pa, formattedPath := fp, inputPath := ip,
               handler := Sum.inl fid, isMiddleware := mid,
               isRouterHandler := rh } :: rest) = (do
              let b ← findListFuel req (f + 1) rest
              some ((let m := routeMatch ⟨me, pa, fp, ip, Sum.inl fid, mid, rh⟩ req
                     if m.doesMatch then [⟨⟨me, pa, fp, ip, Sum.inl fid, mid, rh⟩, m.pathMatch⟩]
                     else []) ++ b)) from by simp [findListFuel]]
        rw [ih (f + 1) hrest]
        simp [findList]

theorem setBasePathLoop_diverges (compile : JStr → Pattern) :
    ∀ (fuel i : Nat) (r : JRouter), i < r.routes.length →
      (∀ route ∈ r.routes, isRouterH route.handler = false) →
      setBasePathLoop compile fuel i r = none := by
  intro fuel
  induction fuel with
  | zero => intro i r _ _; rfl
  | succ f ih =>
    intro i r hi hall
    have hget : isRouterH (r.routes.get ⟨i, hi⟩).handler = false :=
      hall _ (List.get_mem _ _ _)
    simp only [setBasePathLoop, dif_pos hi]
    rw [show createRoute compile r (rebuildOpts (r.routes.get ⟨i, hi⟩)) =
        (JRouter.mk r.basePath r.isWaterfall
          (r.routes ++ [mkRoute compile r.basePath (rebuildOpts (r.routes.get ⟨i, hi⟩))])
          r.transformer,
         .ok (mkRoute compile r.basePath (rebuildOpts (r.routes.get ⟨i, hi⟩)))) from by
      rw [createRoute, if_neg]
      intro ⟨_, hrt⟩
      rw [show (rebuildOpts (r.routes.get ⟨i, hi⟩)).handler = (r.routes.get ⟨i, hi⟩).handler from rfl] at hrt
      rw [hget] at hrt
      exact Bool.false_ne_true hrt]
    apply ih
    · simp only [routes_mk, List.length_append, List.length_singleton]
      omega
    · intro route hroute
      rw [routes_mk] at hroute
      simp only [List.mem_append, List.mem_singleton] at hroute
      rcases hroute with h | h
      · exact hall route h
      · subst h
        rw [mkRoute_handler]
        exact hget

theorem solo_find : findMatchingRoutes soloRouter reqRoot = [⟨soloRoute, some []⟩] := by
  simp +decide [findMatchingRoutes, soloRouter, soloRoute, findList, JRouter.routes, routeMatch,
    matchPath, litPat, jsUpper, reqRoot]

theorem serve_solo : serve semInc soloRouter reqRoot false 0 =
    .ok ⟨some (some []), [], some soloRoute, some 1, none⟩ := by
  rw [serve]
  rw [solo_find]
  rfl

/-! ## Claim theorems -/

/-- C1: the spec claims a Route whose method is `ANY` matches every request
method whose path matches. In the source, `Route.match` computes
`doesMatch = !!pathMatches && methodMatches` with no special case for
`ANY`: for the route `anyRoute` (method `"ANY"`, pattern matching `/x/`)
and a `GET /x/` request the path matches (`pathMatch = some []`) yet
`doesMatch = false`; only a request whose literal method string
upper-cases to `"ANY"` matches. This contradicts the source's own
documentation ("use ANY for any methods"), so the code, not the claim, is
wrong. -/
theorem any_method_route_rejects_get :
    routeMatch anyRoute reqGetX = { pathMatch := some [], doesMatch := false } ∧
    routeMatch anyRoute reqAnyX = { pathMatch := some [], doesMatch := true } := by
  constructor <;> decide

/-- C2: the spec claims `waterfallMiddleware = false` yields
`isWaterfall = false` (concurrent mode). The constructor computes
`this.isWaterfall = options.waterfallMiddleware || true`, which is `true`
for every argument — in particular for an explicit `false` — so concurrent
mode is unreachable through the constructor option, contradicting the
option's own documentation. -/
theorem waterfall_option_false_ignored :
    (mkRouter none (some false) none).isWaterfall = true ∧
    ∀ (bp : Option JStr) (w : Option Bool) (tr : Option (Payload → Payload)),
      (mkRouter bp w tr).isWaterfall = true := by
  refine ⟨rfl, ?_⟩
  intro bp w tr
  cases w with
  | none => rfl
  | some b => cases b <;> rfl

/-- C3 counterexample: on a successful dispatch (router `soloRouter`,
request `GET /`, initial payload `0`, every handler incrementing the
payload) `serve` builds the response value `1` and passes it to
`console.log` (`logged = some 1`), but its body contains no `return`
statement: the promise resolves with `undefined` (`returned = none`). The
built response value is therefore not returned to the caller, contrary to
the claim. -/
theorem serve_discards_built_response :
    serve semInc soloRouter reqRoot false 0 =
      .ok ⟨some (some []), [], some soloRoute, some 1, none⟩ ∧
    (ServeRes.returned ⟨some (some []), [], some soloRoute, some 1, none⟩ = none) ∧
    (ServeRes.logged ⟨some (some []), [], some soloRoute, some 1, none⟩ = some 1) := by
  exact ⟨serve_solo, rfl, rfl⟩

/-- C3 amended: for every successful dispatch of a raw request, `serve`
builds the response value — the accumulated payload transformed by the
configured `customResponseTransformer` if one is set, otherwise the raw
accumulated payload — and emits it via the logging sink; the call resolves
with no value, so the built response is observable only through the log,
not through `serve`'s return value. Formally: a successful `serve` on a
transformer-free router resolves with `none`, and the same router with a
transformer `f` logs exactly `f` of what the transformer-free router
logs (and still resolves with `none`). -/
theorem serve_logs_transformed_payload_and_resolves_nothing :
    ∀ (sem : Nat → Payload → Payload) (bp : JStr) (wf : Bool) (rs : List JRoute)
      (f : Payload → Payload) (req : JRequest) (pl : Payload) (res : ServeRes),
      serve sem (JRouter.mk bp wf rs none) req false pl = .ok res →
      res.returned = none ∧
      serve sem (JRouter.mk bp wf rs (some f)) req false pl =
        .ok { res with logged := res.logged.map f } := by
  intro sem bp wf rs f req pl res h
  rw [serve] at h ⊢
  simp only [Bool.false_eq_true, if_false] at h ⊢
  have hfind : findMatchingRoutes (JRouter.mk bp wf rs (some f)) req =
      findMatchingRoutes (JRouter.mk bp wf rs none) req := rfl
  rw [hfind]
  cases hh : (List.filter (fun m => !m.route.isMiddleware)
      (findMatchingRoutes (JRouter.mk bp wf rs none) req)).head? with
  | none => rw [hh] at h; exact absurd h (by simp)
  | some rh =>
    rw [hh] at h
    simp only [Except.ok.injEq] at h
    subst h
    exact ⟨rfl, rfl⟩

/-- C3 witness: instantiating the amended theorem at `soloRouter` (as a
literal `JRouter.mk`, transformer-free) with the transformer
`fun p => p + 10`: the transformer-free dispatch resolves with nothing,
and the transformed router logs `11 = (1 + 10)`. -/
theorem serve_logs_transformed_payload_and_resolves_nothing_witness :
    (ServeRes.returned ⟨some (some []), [], some soloRoute, some 1, none⟩ = none) ∧
    serve semInc (JRouter.mk ("/".toList) true [soloRoute] (some (fun p => p + 10)))
      reqRoot false 0 =
      .ok ⟨some (some []), [], some soloRoute, some 11, none⟩ := by
  obtain ⟨h1, h2⟩ :=
    serve_logs_transformed_payload_and_resolves_nothing semInc ("/".toList) true [soloRoute]
      (fun p => p + 10) reqRoot 0 ⟨some (some []), [], some soloRoute, some 1, none⟩ serve_solo
  exact ⟨h1, h2⟩

/-- C4 counterexample: normalization is not idempotent for every base path.
With base path `/api/` (itself a valid normalized base path, produced by
`setBasePath("/api")`), `fixPath("/widgets") = "/api/widgets/"`, but
normalizing that again prepends the base path a second time:
`fixPath("/api/widgets/") = "/api/api/widgets/"`. -/
theorem fix_path_not_idempotent_for_api_base :
    fixPath ("/api/".toList) (fixPath ("/api/".toList) ("/widgets".toList)) ≠
      fixPath ("/api/".toList) ("/widgets".toList) ∧
    fixPath ("/api/".toList) ("/widgets".toList) = "/api/widgets/".toList ∧
    fixPath ("/api/".toList) (fixPath ("/api/".toList) ("/widgets".toList)) =
      "/api/api/widgets/".toList := by
  refine ⟨?_, ?_, ?_⟩ <;> decide

/-- C4 amended: normalization is idempotent when the router's base path is
the default `"/"` (the only base path whose re-prefixing is invisible): for
every input path `P`, `fixPath(fixPath(P)) = fixPath(P)` on a router whose
`basePath` is `"/"`. For any longer base path the second application
prepends the base path again (see the counterexample). -/
theorem fix_path_idempotent_at_root_base :
    ∀ p : JStr, fixPath ['/'] (fixPath ['/'] p) = fixPath ['/'] p := by
  intro p
  obtain ⟨t, ht⟩ := fixPath_cons_shape '/' [] p
  have hl : lastIsSlash (fixPath ['/'] p) = true := fixPath_last ['/'] p
  rw [ht] at hl ⊢
  unfold fixPath withBase
  simp [headIsSlash, hl]

/-- C5 counterexample: the normalized path does not always end with exactly
one trailing separator. With base path `/` and input path `//`, `fixPath`
returns `//`, whose last two characters are both separators. -/
theorem fix_path_double_trailing_slash :
    fixPath ("/".toList) ("//".toList) = "//".toList ∧
    endsWithOneSlash (fixPath ("/".toList) ("//".toList)) = false := by
  constructor <;> decide

/-- C5 amended: for every base path that starts with the separator (every
base path produced by `setBasePath` does) and every input path, with or
without leading/trailing separators, the normalized path starts with the
separator and ends with at least one trailing separator (exactly one only
when the input does not itself end in a separator run). -/
theorem fix_path_separator_bounds :
    ∀ (bp p : JStr), headIsSlash bp = true →
      headIsSlash (fixPath bp p) = true ∧ lastIsSlash (fixPath bp p) = true := by
  intro bp p h
  exact ⟨fixPath_headIsSlash bp p h, fixPath_last bp p⟩

/-- C5 witness: the amended theorem applied at base path `/api/` and input
path `widgets` (no leading or trailing separator). -/
theorem fix_path_separator_bounds_witness :
    headIsSlash (fixPath ("/api/".toList) ("widgets".toList)) = true ∧
    lastIsSlash (fixPath ("/api/".toList) ("widgets".toList)) = true :=
  fix_path_separator_bounds ("/api/".toList) ("widgets".toList) (by decide)

/-- C6: the spec claims changing the base path rebuilds every owned route
and completes with one rebuilt route per old route. In the source,
`setBasePath` iterates `this.routes` with `for...of` while every
`createRoute` call inside the loop pushes the rebuilt route onto that same
live array, so the iterator never reaches the end: for a router owning the
single route `/widgets`, `setBasePath("/api/")` runs out of any finite
fuel (the loop never terminates). Each individual rebuild would produce
the claimed path — the rebuilt `/widgets` route is normalized to
`/api/widgets/` — but the rebuild operation never completes. -/
theorem set_base_path_never_terminates :
    ∀ (compile : JStr → Pattern) (fuel : Nat),
      setBasePath compile fuel ((createRoute compile (mkRouter none none none) widgetOpts).1)
        (some ("/api/".toList)) = none ∧
      (mkRoute compile ("/api/".toList)
        (rebuildOpts (mkRoute compile ("/".toList) widgetOpts))).formattedPath
        = "/api/widgets/".toList := by
  intro compile fuel
  refine ⟨?_, rfl⟩
  rw [show setBasePath compile fuel ((createRoute compile (mkRouter none none none) widgetOpts).1)
        (some ("/api/".toList)) =
      setBasePathLoop compile fuel 0
        (JRouter.mk ("/api/".toList) true [mkRoute compile ("/".toList) widgetOpts] none) from rfl]
  apply setBasePathLoop_diverges
  · rw [routes_mk]
    simp
  · intro route hroute
    rw [routes_mk] at hroute
    simp only [List.mem_singleton] at hroute
    subst hroute
    rfl

/-- C7: `findMatchingRoutes` preserves discovery order and splices nested
routers in place. For `exRouter` with routes `[A (plain), B (nested router
with routes [C, D]), E (plain)]` and a request matching the patterns of A,
C, D and E, the returned sequence is exactly `[A, C, D, E]` — the nested
matches appear where B is mounted, and B itself is absent. Moreover no
element of any `findMatchingRoutes` result has a nested-`Router` handler. -/
theorem find_matching_routes_order_and_splice :
    findMatchingRoutes exRouter reqW =
      [⟨routeA, some []⟩, ⟨routeC, some []⟩, ⟨routeD, some []⟩, ⟨routeE, some []⟩] ∧
    ∀ (r : JRouter) (req : JRequest) (m : Matching),
      m ∈ findMatchingRoutes r req → isRouterH m.route.handler = false := by
  constructor
  · simp +decide [findMatchingRoutes, exRouter, innerRouter, findList, JRouter.routes, routeA,
      routeB, routeC, routeD, routeE, plainRoute, routeMatch, matchPath, litPat, jsUpper, reqW]
  · intro r req m hm
    exact findList_no_router_handler req r.routes m hm

/-- C7 witness: the general half applied to the first element of the
computed match list of `exRouter`. -/
theorem find_matching_routes_order_and_splice_witness :
    isRouterH (Matching.mk routeA (some [])).route.handler = false :=
  find_matching_routes_order_and_splice.2 exRouter reqW ⟨routeA, some []⟩
    (by rw [find_matching_routes_order_and_splice.1]; exact List.mem_cons_self _ _)

/-- C8: registering a nested-`Router` handler with any method other than
`"ANY"` (including `PUT`, and including an omitted method, which defaults
later to `GET`) fails with the `InvalidRouteDefinition` error and leaves
the router — in particular its routes sequence — unchanged; registering
the same handler with method `"ANY"` succeeds, appends exactly the new
route, and yields a route with `isMiddleware = false` and
`isRouterHandler = true`. -/
theorem nested_router_registration_invariant :
    ∀ (compile : JStr → Pattern) (r nested : JRouter) (path : JStr)
      (mw : Option Bool) (m : Option JStr), m ≠ some ("ANY".toList) →
      createRoute compile r
          { path := path, handler := Sum.inr nested, method := m, isMiddleware := mw } =
        (r, .error ("Cannot have handler as instance of Router if method is not ANY!".toList)) ∧
      (createRoute compile r
          { path := path, handler := Sum.inr nested, method := some ("ANY".toList),
            isMiddleware := mw }).1.routes
        = r.routes ++ [mkRoute compile r.basePath
            { path := path, handler := Sum.inr nested, method := some ("ANY".toList),
              isMiddleware := mw }] ∧
      (createRoute compile r
          { path := path, handler := Sum.inr nested, method := some ("ANY".toList),
            isMiddleware := mw }).2
        = .ok (mkRoute compile r.basePath
            { path := path, handler := Sum.inr nested, method := some ("ANY".toList),
              isMiddleware := mw }) ∧
      (mkRoute compile r.basePath
          { path := path, handler := Sum.inr nested, method := some ("ANY".toList),
            isMiddleware := mw }).isMiddleware = false ∧
      (mkRoute compile r.basePath
          { path := path, handler := Sum.inr nested, method := some ("ANY".toList),
            isMiddleware := mw }).isRouterHandler = true := by
  intro compile r nested path mw m hm
  refine ⟨?_, ?_, ?_, rfl, rfl⟩
  · rw [createRoute, if_pos ⟨hm, rfl⟩]
  · rw [createRoute, if_neg (by intro ⟨h1, _⟩; exact h1 rfl)]
    rw [routes_mk]
  · rw [createRoute, if_neg (by intro ⟨h1, _⟩; exact h1 rfl)]

/-- C8 witness: the invariant applied at a concrete registration — the
literal-pattern compiler, `soloRouter` as the registering router,
`innerRouter` as the nested handler, input path `/sub` and method `PUT`. -/
theorem nested_router_registration_invariant_witness :
    createRoute litCompile soloRouter
        { path := "/sub".toList, handler := Sum.inr innerRouter,
          method := some ("PUT".toList), isMiddleware := none } =
      (soloRouter,
       .error ("Cannot have handler as instance of Router if method is not ANY!".toList)) ∧
    (createRoute litCompile soloRouter
        { path := "/sub".toList, handler := Sum.inr innerRouter,
          method := some ("ANY".toList), isMiddleware := none }).1.routes
      = soloRouter.routes ++ [mkRoute litCompile soloRouter.basePath
          { path := "/sub".toList, handler := Sum.inr innerRouter,
            method := some ("ANY".toList), isMiddleware := none }] ∧
    (createRoute litCompile soloRouter
        { path := "/sub".toList, handler := Sum.inr innerRouter,
          method := some ("ANY".toList), isMiddleware := none }).2
      = .ok (mkRoute litCompile soloRouter.basePath
          { path := "/sub".toList, handler := Sum.inr innerRouter,
            method := some ("ANY".toList), isMiddleware := none }) ∧
    (mkRoute litCompile soloRouter.basePath
        { path := "/sub".toList, handler := Sum.inr innerRouter,
          method := some ("ANY".toList), isMiddleware := none }).isMiddleware = false ∧
    (mkRoute litCompile soloRouter.basePath
        { path := "/sub".toList, handler := Sum.inr innerRouter,
          method := some ("ANY".toList), isMiddleware := none }).isRouterHandler = true :=
  nested_router_registration_invariant litCompile soloRouter innerRouter ("/sub".toList)
    none (some ("PUT".toList)) (by decide)

/-- C9: when `serve` receives an input that is already a wrapped
`RouterRequest` instance (`alreadyProcessed`), the entire dispatch body is
skipped: no params are assigned, no middleware runs, no terminal handler
runs, nothing is logged (no response is built), no "no handler found"
error is raised — even for a router with zero routes, since the result is
the same for every router — and the call resolves with no value. -/
theorem serve_skips_wrapped_requests :
    ∀ (sem : Nat → Payload → Payload) (r : JRouter) (req : JRequest) (pl : Payload),
      serve sem r req true pl = .ok ⟨none, [], none, none, none⟩ := by
  intro sem r req pl
  rfl

/-- C10: route discovery terminates on every representable router. In this
embedding a router is an inductive value, so a router's nesting graph is
exactly a finite tree — the acyclic case; a cyclic `Router` object graph
(a router reachable from itself through a nested-handler route) has no
inductive counterpart, which is the precondition the claim names. On every
such router the fuel-indexed discovery stabilizes as soon as the fuel
bounds the nesting depth, at the value of the total function
`findMatchingRoutes`. -/
theorem find_matching_routes_fuel_adequate :
    ∀ (r : JRouter) (req : JRequest) (fuel : Nat), routerDepth r ≤ fuel →
      findMatchingRoutesFuel fuel r req = some (findMatchingRoutes r req) := by
  intro r req fuel h
  exact findListFuel_complete req r.routes fuel h

/-- C10 witness: the nesting depth of `exRouter` (one nested router) is at
most `1`, and with fuel `1` the fuel-indexed discovery returns the match
list of the total function. -/
theorem find_matching_routes_fuel_adequate_witness :
    routerDepth exRouter ≤ 1 ∧
    findMatchingRoutesFuel 1 exRouter reqW = some (findMatchingRoutes exRouter reqW) := by
  have hd : routerDepth exRouter ≤ 1 := by
    simp [routerDepth, depthList, exRouter, innerRouter, routeA, routeB, routeC, routeD,
      routeE, plainRoute, routes_mk]
  exact ⟨hd, find_matching_routes_fuel_adequate exRouter reqW 1 hd⟩
